import Mathlib

/-!
Shallow embedding of the `with_lock` crate (src/lib.rs): the `WithLock`
scoped-lock executor and the `MutexCell` value cell built on it.

Modelling conventions:
* A `std::sync::Mutex<T>` is a value of `T` together with a `poisoned` flag.
  `Mutex::lock` and `Mutex::into_inner` return `Except (PoisonError T) T`,
  mirroring Rust's `LockResult`.
* `Result::unwrap` is `unwrapLR`: `Ok t ↦ some t`, `Err _ ↦ none`; `none`
  throughout this development denotes a panic (the call never returns a
  value to its caller).
* A Rust closure `FnOnce(&mut T) -> U` is a function `T → T × U`: it
  receives the current contents and yields the contents it leaves behind
  together with its return value.
* `MutexCell::swap` compares cell identities with `ptr::eq`; cells are
  therefore addressed through a world `Nat → MutexCell T`, a cell identity
  being its index, and `ptr::eq self new` being index equality.
* World-level operations also return the list of cell identities whose
  locks they acquired, in acquisition order, so that lock-acquisition
  counts and cross-cell acquisition order are stated as theorems.
-/

/-- Rust `std::sync::PoisonError`: the error carried by a poisoned lock
result, still giving access to the guarded data. -/
structure PoisonError (T : Type) where
  guard : T

/-- Rust `std::sync::Mutex<T>`: the protected value together with its
poison flag. -/
structure Mutex (T : Type) where
  data : T
  poisoned : Bool

/-- Rust `Mutex::new`: a fresh mutex is not poisoned. -/
def Mutex.new (data : T) : Mutex T :=
  ⟨data, false⟩

/-- Rust `Mutex::lock`: `Ok` with the data when the mutex is healthy,
`Err(PoisonError)` when a previous holder panicked while holding it. -/
def Mutex.lock (m : Mutex T) : Except (PoisonError T) T :=
  if m.poisoned then Except.error ⟨m.data⟩ else Except.ok m.data

/-- Rust `Mutex::into_inner`: consumes the mutex, returning `Ok` with the
data or `Err(PoisonError)` when poisoned. -/
def Mutex.intoInner (m : Mutex T) : Except (PoisonError T) T :=
  if m.poisoned then Except.error ⟨m.data⟩ else Except.ok m.data

/-- Rust `LockResult::unwrap`: returns the value on `Ok` and panics on
`Err`; the panic is modelled as `none`. -/
def unwrapLR : Except (PoisonError T) T → Option T
  | Except.ok t => some t
  | Except.error _ => none

/-- `WithLock<T>` from src/lib.rs: a struct owning one `Mutex<T>`. -/
structure WithLock (T : Type) where
  data : Mutex T

/-- `WithLock::new` from src/lib.rs: wraps an already-constructed mutex. -/
def WithLock.new (data : Mutex T) : WithLock T :=
  ⟨data⟩

/-- `WithLock::with_lock` from src/lib.rs: `let lock = self.data.lock();
function(&mut *lock.unwrap())`. The guard's data is handed to the
closure; when the closure finishes, the guard is dropped, leaving the
closure's final contents in the mutex. `unwrap` panics (`none`) when the
lock is poisoned. The result is the closure's return value together with
the lock as the call leaves it. -/
def WithLock.with_lock (l : WithLock T) (f : T → T × U) : Option (U × WithLock T) :=
  (unwrapLR l.data.lock).map fun t =>
    let r := f t
    (r.2, ⟨⟨r.1, l.data.poisoned⟩⟩)

/-- `MutexCell<T>` from src/lib.rs: a struct owning one `WithLock<T>`. -/
structure MutexCell (T : Type) where
  data : WithLock T

/-- `MutexCell::new` from src/lib.rs: wraps the value in a fresh (hence
unpoisoned) mutex inside a `WithLock`. -/
def MutexCell.new (data : T) : MutexCell T :=
  ⟨WithLock.new (Mutex.new data)⟩

/-- A world of cells addressed by identity; `ptr::eq` on two `&MutexCell`
references is equality of their identities. -/
def World (T : Type) :=
  Nat → MutexCell T

/-- Pointwise update of a world at one cell identity. -/
def updateW (w : World T) (i : Nat) (c : MutexCell T) : World T :=
  fun j => if j = i then c else w j

/-- One `with_lock` call on the cell with identity `i`: the cell-level
`WithLock.with_lock`, lifted to the world, recording that the lock of
cell `i` was acquired (once). -/
def withLockW (w : World T) (i : Nat) (f : T → T × U) : Option (U × World T × List Nat) :=
  ((w i).data.with_lock f).map fun r => (r.1, updateW w i ⟨r.2⟩, [i])

/-- `MutexCell::get` from src/lib.rs: `self.data.with_lock(|s| *s)`. -/
def getW (w : World T) (i : Nat) : Option (T × World T × List Nat) :=
  withLockW w i fun s => (s, s)

/-- `MutexCell::set` from src/lib.rs: `self.data.with_lock(|s| *s = data)`. -/
def setW (w : World T) (i : Nat) (data : T) : Option (Unit × World T × List Nat) :=
  withLockW w i fun _ => (data, ())

/-- `MutexCell::replace` from src/lib.rs:
`self.data.with_lock(|old| mem::replace(old, new))`. -/
def replaceW (w : World T) (i : Nat) (new : T) : Option (T × World T × List Nat) :=
  withLockW w i fun old => (new, old)

/-- `MutexCell::take` from src/lib.rs: `self.replace(Default::default())`. -/
def takeW [Inhabited T] (w : World T) (i : Nat) : Option (T × World T × List Nat) :=
  replaceW w i default

/-- `MutexCell::into_inner` from src/lib.rs:
`self.data.data.into_inner().unwrap()` (panics when poisoned). -/
def intoInnerW (w : World T) (i : Nat) : Option T :=
  unwrapLR (w i).data.data.intoInner

/-- `MutexCell::swap` from src/lib.rs: `if ptr::eq(self, new) { return; }`
then `self.data.with_lock(|a| new.data.with_lock(|b| mem::swap(a, b)))`.
The identity check precedes any locking; for distinct cells the
receiver's lock is acquired first and the argument's lock second, and
while both are held the contents are exchanged. Each `unwrap` inside a
`with_lock` panics (`none`) on a poisoned lock. -/
def swapW (w : World T) (i j : Nat) : Option (World T × List Nat) :=
  if i = j then some (w, [])
  else
    (unwrapLR (w i).data.data.lock).bind fun a =>
      (unwrapLR (w j).data.data.lock).bind fun b =>
        some
          (updateW (updateW w i ⟨⟨⟨b, (w i).data.data.poisoned⟩⟩⟩) j
              ⟨⟨⟨a, (w j).data.data.poisoned⟩⟩⟩,
            [i, j])

/-- Error taxonomy named by the spec (section 7). -/
inductive LockError : Type
  | lockPoisoned : LockError

/-- Modelled from the spec: the behaviour section 4.1 and section 7
require of `with_lock` — missing from src/lib.rs, whose `with_lock`
unwraps the lock result instead. On a poisoned lock it returns the
distinct, recoverable `LockPoisoned` failure to the caller; otherwise it
runs the callback and returns its result. -/
def with_lockSpec (l : WithLock T) (f : T → T × U) : Except LockError (U × WithLock T) :=
  if l.data.poisoned then Except.error LockError.lockPoisoned
  else
    let r := f l.data.data
    Except.ok (r.2, ⟨⟨r.1, false⟩⟩)

/-! Helper lemmas about world update and the lifted lock primitive. -/

theorem updateW_eq (w : World T) (i : Nat) (c : MutexCell T) : updateW w i c i = c := by
  simp [updateW]

theorem updateW_ne (w : World T) {i j : Nat} (c : MutexCell T) (h : j ≠ i) :
    updateW w i c j = w j := by
  simp [updateW, h]

theorem updateW_self (w : World T) (i : Nat) : updateW w i (w i) = w := by
  funext j
  unfold updateW
  by_cases h : j = i
  · subst h; simp
  · simp [h]

theorem withLockW_ok (w : World T) (i : Nat) (f : T → T × U) (x : T)
    (h : (w i).data.data = ⟨x, false⟩) :
    withLockW w i f = some ((f x).2, updateW w i ⟨⟨⟨(f x).1, false⟩⟩⟩, [i]) := by
  simp [withLockW, WithLock.with_lock, Mutex.lock, unwrapLR, h]

/-- C7: constructing a cell with `new(x)` and immediately calling `get()`
returns `x` (round-trip of construction and read). -/
theorem new_get_roundtrip (w : World T) (i : Nat) (x : T) (h : w i = MutexCell.new x) :
    (getW w i).map Prod.fst = some x := by
  have hd : (w i).data.data = ⟨x, false⟩ := by rw [h]; rfl
  rw [getW, withLockW_ok w i _ x hd]
  rfl

/-- Witness for C7 at the concrete cell `MutexCell.new 23`. -/
theorem new_get_roundtrip_witness :
    (getW (fun _ => MutexCell.new (23 : Nat)) 0).map Prod.fst = some 23 :=
  new_get_roundtrip (fun _ => MutexCell.new (23 : Nat)) 0 23 rfl

/-- C8: `set(y)` on a cell holding `x` unconditionally overwrites the
contents, returns no value (unit), and a subsequent `get()` returns `y`. -/
theorem set_then_get (w : World T) (i : Nat) (x y : T)
    (h : (w i).data.data = ⟨x, false⟩) :
    setW w i y = some ((), updateW w i ⟨⟨⟨y, false⟩⟩⟩, [i]) ∧
    (getW (updateW w i ⟨⟨⟨y, false⟩⟩⟩) i).map Prod.fst = some y := by
  constructor
  · rw [setW, withLockW_ok w i _ x h]
  · rw [getW, withLockW_ok (updateW w i ⟨⟨⟨y, false⟩⟩⟩) i _ y (by rw [updateW_eq])]
    rfl

/-- Witness for C8: cell holding 3, `set 4`, then `get` returns 4. -/
theorem set_then_get_witness :
    setW (fun _ => MutexCell.new (3 : Nat)) 0 4 =
      some ((), updateW (fun _ => MutexCell.new 3) 0 ⟨⟨⟨4, false⟩⟩⟩, [0]) ∧
    (getW (updateW (fun _ => MutexCell.new (3 : Nat)) 0 ⟨⟨⟨4, false⟩⟩⟩) 0).map Prod.fst =
      some 4 :=
  set_then_get (fun _ => MutexCell.new 3) 0 3 4 rfl

/-- C10: `get()` is a pure read — it returns the contained value, leaves
the world exactly as it was (so two consecutive calls return the same
value), and acquires the lock once. -/
theorem get_pure_read (w : World T) (i : Nat) (h : (w i).data.data.poisoned = false) :
    getW w i = some ((w i).data.data.data, w, [i]) := by
  have hd : (w i).data.data = ⟨(w i).data.data.data, false⟩ := by rw [← h]
  have hu : updateW w i ⟨⟨⟨(w i).data.data.data, false⟩⟩⟩ = w := by
    rw [← hd]
    exact updateW_self w i
  simp [getW, withLockW_ok w i (fun s => (s, s)) ((w i).data.data.data) hd, hu]

/-- Witness for C10 at a concrete world where cell 0 holds 5. -/
theorem get_pure_read_witness :
    getW (fun _ => MutexCell.new (5 : Nat)) 0 =
      some (5, (fun _ => MutexCell.new (5 : Nat)), [0]) :=
  get_pure_read (fun _ => MutexCell.new (5 : Nat)) 0 rfl

/-- C4: `replace(y)` on a cell holding `x` returns `x`, leaves the cell
containing `y` (a subsequent `get()` returns `y`), and does so in a single
lock acquisition: its acquisition trace is the one-element list `[i]`. -/
theorem replace_atomic (w : World T) (i : Nat) (x y : T)
    (h : (w i).data.data = ⟨x, false⟩) :
    replaceW w i y = some (x, updateW w i ⟨⟨⟨y, false⟩⟩⟩, [i]) ∧
    (getW (updateW w i ⟨⟨⟨y, false⟩⟩⟩) i).map Prod.fst = some y := by
  constructor
  · rw [replaceW, withLockW_ok w i _ x h]
  · rw [getW, withLockW_ok (updateW w i ⟨⟨⟨y, false⟩⟩⟩) i _ y (by rw [updateW_eq])]
    rfl

/-- Witness for C4: cell holding 3, `replace 4` returns 3 in one
acquisition, then `get` returns 4. -/
theorem replace_atomic_witness :
    replaceW (fun _ => MutexCell.new (3 : Nat)) 0 4 =
      some (3, updateW (fun _ => MutexCell.new 3) 0 ⟨⟨⟨4, false⟩⟩⟩, [0]) ∧
    (getW (updateW (fun _ => MutexCell.new (3 : Nat)) 0 ⟨⟨⟨4, false⟩⟩⟩) 0).map Prod.fst =
      some 4 :=
  replace_atomic (fun _ => MutexCell.new 3) 0 3 4 rfl

/-- C9: `take()` on a cell holding `x` is definitionally `replace` applied
to the type's default value; it returns `x` in one lock acquisition, and
afterwards both `get()` and `into_inner()` yield the default value. -/
theorem take_is_replace_default [Inhabited T] (w : World T) (i : Nat) (x : T)
    (h : (w i).data.data = ⟨x, false⟩) :
    takeW w i = replaceW w i default ∧
    takeW w i = some (x, updateW w i ⟨⟨⟨default, false⟩⟩⟩, [i]) ∧
    (getW (updateW w i ⟨⟨⟨(default : T), false⟩⟩⟩) i).map Prod.fst = some (default : T) ∧
    intoInnerW (updateW w i ⟨⟨⟨(default : T), false⟩⟩⟩) i = some (default : T) := by
  refine ⟨rfl, ?_, ?_, ?_⟩
  · rw [takeW, replaceW, withLockW_ok w i _ x h]
  · rw [getW, withLockW_ok (updateW w i ⟨⟨⟨default, false⟩⟩⟩) i _ default (by rw [updateW_eq])]
    rfl
  · rw [intoInnerW, updateW_eq]
    rfl

/-- Witness for C9: cell holding 5, `take` returns 5, then `get` and
`into_inner` both give 0, the default for `Nat`. -/
theorem take_is_replace_default_witness :
    takeW (fun _ => MutexCell.new (5 : Nat)) 0 = replaceW (fun _ => MutexCell.new 5) 0 default ∧
    takeW (fun _ => MutexCell.new (5 : Nat)) 0 =
      some (5, updateW (fun _ => MutexCell.new 5) 0 ⟨⟨⟨default, false⟩⟩⟩, [0]) ∧
    (getW (updateW (fun _ => MutexCell.new (5 : Nat)) 0 ⟨⟨⟨(default : Nat), false⟩⟩⟩) 0).map
        Prod.fst = some (default : Nat) ∧
    intoInnerW (updateW (fun _ => MutexCell.new (5 : Nat)) 0 ⟨⟨⟨(default : Nat), false⟩⟩⟩) 0 =
      some (default : Nat) :=
  take_is_replace_default (fun _ => MutexCell.new 5) 0 5 rfl

/-- C3: `swap` of a cell with itself is a no-op: the `ptr::eq` identity
check fires before any lock acquisition, the world is unchanged and the
acquisition trace is empty. The statement holds for every world,
including worlds where the cell's lock is poisoned, which shows the lock
is never touched. -/
theorem swap_self_noop (w : World T) (i : Nat) : swapW w i i = some (w, []) := by
  simp [swapW]

/-- C5: for distinct cells `i` holding `x` and `j` holding `y`,
`i.swap(j)` exchanges the contents: afterwards `get` on `i` returns `y`
and `get` on `j` returns `x`. -/
theorem swap_exchanges (w : World T) (i j : Nat) (x y : T) (hij : i ≠ j)
    (hi : (w i).data.data = ⟨x, false⟩) (hj : (w j).data.data = ⟨y, false⟩) :
    ∃ w1, swapW w i j = some (w1, [i, j]) ∧
      (getW w1 i).map Prod.fst = some y ∧ (getW w1 j).map Prod.fst = some x := by
  refine ⟨updateW (updateW w i ⟨⟨⟨y, false⟩⟩⟩) j ⟨⟨⟨x, false⟩⟩⟩, ?_, ?_, ?_⟩
  · simp [swapW, hij, Mutex.lock, hi, hj, unwrapLR]
  · have hb : (updateW (updateW w i ⟨⟨⟨y, false⟩⟩⟩) j ⟨⟨⟨x, false⟩⟩⟩ i).data.data =
        ⟨y, false⟩ := by
      rw [updateW_ne _ _ hij, updateW_eq]
    rw [getW, withLockW_ok _ i _ y hb]
    rfl
  · have hb : (updateW (updateW w i ⟨⟨⟨y, false⟩⟩⟩) j ⟨⟨⟨x, false⟩⟩⟩ j).data.data =
        ⟨x, false⟩ := by
      rw [updateW_eq]
    rw [getW, withLockW_ok _ j _ x hb]
    rfl

/-- Witness for C5: cells 0 and 1 holding 5 and 10; after `swap`, `get`
gives 10 at cell 0 and 5 at cell 1. -/
theorem swap_exchanges_witness :
    ∃ w1, swapW (fun n => MutexCell.new n) 0 1 = some (w1, [0, 1]) ∧
      (getW w1 0).map Prod.fst = some 1 ∧ (getW w1 1).map Prod.fst = some 0 :=
  swap_exchanges (fun n => MutexCell.new n) 0 1 0 1 (by decide) rfl rfl

/-- C2 counterexample: the lock-acquisition order of `swap` is not given
by a stable ordering of cell identities — it is receiver-first. On the
same pair of healthy cells, `a.swap(b)` acquires in order `[0, 1]` while
`b.swap(a)` acquires in order `[1, 0]`, so the two opposite-direction
calls acquire the two locks in opposite orders. -/
theorem swap_order_cex :
    (swapW (fun n => MutexCell.new n) 0 1).map Prod.snd = some [0, 1] ∧
    (swapW (fun n => MutexCell.new n) 1 0).map Prod.snd = some [1, 0] ∧
    ([0, 1] : List Nat) ≠ [1, 0] :=
  ⟨rfl, rfl, by decide⟩

/-- C2 amended: for distinct healthy cells the acquisition order of
`i.swap(j)` is determined by which cell is the receiver — the receiver's
lock first, then the argument's — with no identity-based total ordering
applied. -/
theorem swap_order_receiver_first (w : World T) (i j : Nat) (x y : T) (hij : i ≠ j)
    (hi : (w i).data.data = ⟨x, false⟩) (hj : (w j).data.data = ⟨y, false⟩) :
    (swapW w i j).map Prod.snd = some [i, j] := by
  simp [swapW, hij, Mutex.lock, hi, hj, unwrapLR]

/-- Witness for the C2 amended theorem at cells 0 and 1. -/
theorem swap_order_receiver_first_witness :
    (swapW (fun n => MutexCell.new n) 0 1).map Prod.snd = some [0, 1] :=
  swap_order_receiver_first (fun n => MutexCell.new n) 0 1 0 1 (by decide) rfl rfl

/-- C6: on a healthy (unpoisoned) lock, `with_lock` applies the callback
exactly once to the contained value: the call returns exactly the
callback's result, and the contained value afterwards is exactly the
value the callback left, with no other change of state. -/
theorem with_lock_callback_once (l : WithLock T) (f : T → T × U)
    (h : l.data.poisoned = false) :
    l.with_lock f = some ((f l.data.data).2, ⟨⟨(f l.data.data).1, false⟩⟩) := by
  simp [WithLock.with_lock, Mutex.lock, unwrapLR, h]

/-- Witness for C6: lock holding 3, callback leaving 4 and returning 6. -/
theorem with_lock_callback_once_witness :
    WithLock.with_lock ⟨⟨(3 : Nat), false⟩⟩ (fun t => (t + 1, t * 2)) =
      some (6, ⟨⟨4, false⟩⟩) :=
  with_lock_callback_once ⟨⟨(3 : Nat), false⟩⟩ (fun t => (t + 1, t * 2)) rfl

/-- C1 counterexample: on a poisoned lock, the crate's `with_lock` panics
(`none` — the `unwrap` of the poisoned lock result) and so returns no
value at all to its caller, while the spec-modelled `with_lockSpec`
returns the distinct, recoverable `LockPoisoned` failure. The claim that
`with_lock` returns a recoverable failure is therefore false on the
code. -/
theorem with_lock_poisoned_cex :
    WithLock.with_lock ⟨⟨(0 : Nat), true⟩⟩ (fun t => (t, t)) = none ∧
    with_lockSpec ⟨⟨(0 : Nat), true⟩⟩ (fun t => (t, t)) =
      Except.error LockError.lockPoisoned :=
  ⟨rfl, rfl⟩

/-- C1 amended: when the underlying mutex is poisoned, `with_lock` panics
(via `unwrap`) instead of returning a recoverable `LockPoisoned` failure,
and every `MutexCell` operation built on the lock — `get`, `set`,
`replace`, `take`, `into_inner`, and `swap` with a distinct cell —
propagates the same panic (`none`). -/
theorem with_lock_poisoned_panics [Inhabited T] (l : WithLock T) (f : T → T × U)
    (w : World T) (i j : Nat) (x : T)
    (hl : l.data.poisoned = true) (hw : (w i).data.data.poisoned = true) (hij : i ≠ j) :
    l.with_lock f = none ∧ getW w i = none ∧ setW w i x = none ∧
    replaceW w i x = none ∧ takeW w i = none ∧ intoInnerW w i = none ∧
    swapW w i j = none := by
  refine ⟨?_, ?_, ?_, ?_, ?_, ?_, ?_⟩
  · simp [WithLock.with_lock, Mutex.lock, unwrapLR, hl]
  · simp [getW, withLockW, WithLock.with_lock, Mutex.lock, unwrapLR, hw]
  · simp [setW, withLockW, WithLock.with_lock, Mutex.lock, unwrapLR, hw]
  · simp [replaceW, withLockW, WithLock.with_lock, Mutex.lock, unwrapLR, hw]
  · simp [takeW, replaceW, withLockW, WithLock.with_lock, Mutex.lock, unwrapLR, hw]
  · simp [intoInnerW, Mutex.intoInner, unwrapLR, hw]
  · simp [swapW, hij, Mutex.lock, unwrapLR, hw]

/-- Witness for the C1 amended theorem: a poisoned lock holding 0 and a
world whose cell 0 is poisoned; every operation panics. -/
theorem with_lock_poisoned_panics_witness :
    WithLock.with_lock ⟨⟨(0 : Nat), true⟩⟩ (fun t => (t, t)) = none ∧
    getW (fun _ => MutexCell.mk ⟨⟨(0 : Nat), true⟩⟩) 0 = none ∧
    setW (fun _ => MutexCell.mk ⟨⟨(0 : Nat), true⟩⟩) 0 7 = none ∧
    replaceW (fun _ => MutexCell.mk ⟨⟨(0 : Nat), true⟩⟩) 0 7 = none ∧
    takeW (fun _ => MutexCell.mk ⟨⟨(0 : Nat), true⟩⟩) 0 = none ∧
    intoInnerW (fun _ => MutexCell.mk ⟨⟨(0 : Nat), true⟩⟩) 0 = none ∧
    swapW (fun _ => MutexCell.mk ⟨⟨(0 : Nat), true⟩⟩) 0 1 = none :=
  with_lock_poisoned_panics ⟨⟨(0 : Nat), true⟩⟩ (fun t => (t, t))
    (fun _ => MutexCell.mk ⟨⟨(0 : Nat), true⟩⟩) 0 1 7 rfl rfl (by decide)
